import Mathlib

/-!
Verification of the login-form components.

Embedded source:
* `FormField` widget (the reusable field component): the `inputId` computed
  property.
* The validated `LoginForm` variant (the component with `validationRules`,
  `isValid`, `validateField`, `validateForm` and `handleSubmit`): its data
  model, validation logic and submission workflow.

The submission workflow is modelled as a pure function from the form state and
the outcome of the single network request to the new form state together with
the list of observable side effects (the outgoing request, the shared-state
commit, the emitted success event).
-/

namespace FormField

/-- Chars of `label.toLowerCase().replace(/\s+/g, '-')` after lowercasing:
each maximal run of whitespace is replaced by a single hyphen.  The flag
records whether we are inside a whitespace run already replaced. -/
def replaceWsRuns : List Char → Bool → List Char
  | [], _ => []
  | c :: cs, inRun =>
    if c.isWhitespace then
      (if inRun then [] else ['-']) ++ replaceWsRuns cs true
    else
      c :: replaceWsRuns cs false

/-- The `inputId` computed property:
`` `field-${this.label.toLowerCase().replace(/\s+/g, '-')}` ``. -/
def inputId (label : String) : String :=
  "field-" ++ String.mk (replaceWsRuns (label.data.map Char.toLower) false)

end FormField

namespace LoginForm

/-- The password pattern `^(?=.*[A-Za-z])(?=.*\d)[A-Za-z\d]{8,}$`: at least 8
characters, all of them ASCII letters or digits, with at least one letter and
at least one digit. -/
def passwordPatternMatch (s : String) : Bool :=
  decide (8 ≤ s.length) &&
  s.data.all (fun c => c.isAlpha || c.isDigit) &&
  s.data.any Char.isAlpha &&
  s.data.any Char.isDigit

/-- JS `field.charAt(0).toUpperCase() + field.slice(1)`. -/
def capitalize (s : String) : String :=
  match s.data with
  | [] => ""
  | c :: cs => String.mk (c.toUpper :: cs)

/-- One entry of `validationRules`.  A pattern rule carries its configured
message; the username rule has no `message` key, modelled as `""` (never
used because the username rule has no pattern). -/
structure Rule where
  required : Bool
  minLength : Option Nat
  pattern : Option (String → Bool)
  message : String

/-- Rule `validationRules.username = { required: true, minLength: 3 }`. -/
def usernameRule : Rule := ⟨true, some 3, none, ""⟩

/-- Rule `validationRules.password = { required: true, pattern: ..., message: ... }`. -/
def passwordRule : Rule :=
  ⟨true, none, some passwordPatternMatch,
   "Password must be at least 8 characters and include letters and numbers"⟩

/-- JS `rules.minLength && value.length < rules.minLength` (a present
`minLength` is a truthy number here). -/
def minLengthFails (r : Rule) (value : String) : Bool :=
  match r.minLength with
  | some m => decide (value.length < m)
  | none => false

/-- JS `rules.pattern && !value.match(rules.pattern)`. -/
def patternFails (r : Rule) (value : String) : Bool :=
  match r.pattern with
  | some p => !(p value)
  | none => false

/-- The method `validateField(field)`: the returned error string, `""` when the field is
valid.  `name` is the field name used in the generated messages, `value` the
field's current value (`!value` on a JS string is truthy exactly for `""`). -/
def validateField (r : Rule) (name value : String) : String :=
  if r.required && value == "" then
    capitalize name ++ " is required"
  else if minLengthFails r value then
    capitalize name ++ " must be at least " ++ toString (r.minLength.getD 0) ++ " characters"
  else if patternFails r value then
    r.message
  else ""

/-- JS `a || b` on strings: `a` when truthy (non-empty), else `b`. -/
def jsOr (a b : String) : String := if a == "" then b else a

/-- The method `validateForm`: first component is the value of `this.error` after the
call, second the returned boolean. -/
def validateForm (username password : String) : String × Bool :=
  let usernameError := validateField usernameRule "username" username
  let passwordError := validateField passwordRule "password" password
  if usernameError != "" || passwordError != "" then
    (jsOr usernameError passwordError, false)
  else
    ("", true)

/-- The `isValid` computed property:
`this.username.length >= 3 && this.password.match(pattern)` (a `match` result
is truthy exactly when the pattern matches). -/
def isValid (username password : String) : Bool :=
  decide (3 ≤ username.length) && passwordPatternMatch password

/-- The component's reactive data used by the workflow. -/
structure FormState where
  username : String
  password : String
  error : String
  isLoading : Bool
deriving DecidableEq

/-- Body `response.data` of a resolved (2xx) request. -/
structure ResponseData where
  success : Bool
  user : Nat
deriving DecidableEq

/-- Object `error.response` of a rejected request that did receive a response:
HTTP status and the optional `message` field of the body. -/
structure ErrResponse where
  status : Nat
  message : Option String
deriving DecidableEq

/-- Outcome of the single `axios.post` call: resolved with a 2xx response,
rejected with a non-2xx response, or rejected with no response at all. -/
inductive Outcome where
  | ok (resp : ResponseData)
  | httpError (resp : ErrResponse)
  | networkError
deriving DecidableEq

/-- Observable side effects of `handleSubmit`. -/
inductive Effect where
  | postRequest (username password : String)
  | commitSetUser (user : Nat)
  | emitSuccess (msg : String)
deriving DecidableEq

/-- The `catch` block's assignment to `this.error`.  JS operator precedence
(`||` binds tighter than `?:`) parses it as
`(error.response?.data?.message || error.response?.status === 401)
  ? "Invalid username or password"
  : error.response?.status === 429
    ? "Too many attempts. Please try again later"
    : "Authentication failed. Please try again."`,
so a truthy body message selects the 401 text. -/
def catchErrorMessage (response : Option ErrResponse) : String :=
  let msgTruthy : Bool :=
    match response with
    | some r =>
      match r.message with
      | some m => m != ""
      | none => false
    | none => false
  let statusIs : Nat → Bool := fun n =>
    match response with
    | some r => r.status == n
    | none => false
  if msgTruthy || statusIs 401 then "Invalid username or password"
  else if statusIs 429 then "Too many attempts. Please try again later"
  else "Authentication failed. Please try again."

/-- The method `handleSubmit`: validation, then (when valid) the request with the given
outcome; returns the final state and the emitted effects in order. -/
def handleSubmit (s : FormState) (outcome : Outcome) : FormState × List Effect :=
  let v := validateForm s.username s.password
  let s0 := { s with error := v.1 }
  if !v.2 then
    (s0, [])
  else
    let s1 := { s0 with isLoading := true }
    let req := Effect.postRequest s.username s.password
    match outcome with
    | .ok resp =>
      if resp.success then
        ({ s1 with isLoading := false },
         [req, .commitSetUser resp.user, .emitSuccess "Login successful!"])
      else
        ({ s1 with isLoading := false }, [req])
    | .httpError r =>
      ({ s1 with error := catchErrorMessage (some r), isLoading := false }, [req])
    | .networkError =>
      ({ s1 with error := catchErrorMessage none, isLoading := false }, [req])

/-- Follows the spec's words for the failure branch, for comparison with
`catchErrorMessage`: (a) a message embedded in the error response body, else
(b) a status-specific message for 401/429, else (c) the generic message. -/
def specFailureMessage (response : Option ErrResponse) : String :=
  let statusMsg : Nat → String := fun status =>
    if status == 401 then "Invalid username or password"
    else if status == 429 then "Too many attempts. Please try again later"
    else "Authentication failed. Please try again."
  match response with
  | some r =>
    match r.message with
    | some m => if m != "" then m else statusMsg r.status
    | none => statusMsg r.status
  | none => "Authentication failed. Please try again."

end LoginForm

namespace LoginForm

theorem validateField_username_empty_iff (u : String) :
    validateField usernameRule "username" u = "" ↔ 3 ≤ u.length := by
  by_cases h0 : u = ""
  · subst h0; decide
  · have hne : (u == "") = false := beq_eq_false_iff_ne.mpr h0
    by_cases h3 : u.length < 3
    · refine iff_of_false ?_ (by omega)
      simp [validateField, usernameRule, minLengthFails, patternFails, hne, h3]
      decide
    · refine iff_of_true ?_ (by omega)
      simp [validateField, usernameRule, minLengthFails, patternFails, hne, h3]

theorem validateField_password_empty_iff (p : String) :
    validateField passwordRule "password" p = "" ↔ passwordPatternMatch p = true := by
  by_cases h0 : p = ""
  · subst h0; decide
  · have hne : (p == "") = false := beq_eq_false_iff_ne.mpr h0
    cases hm : passwordPatternMatch p with
    | true =>
      refine iff_of_true ?_ rfl
      simp [validateField, passwordRule, minLengthFails, patternFails, hne, hm]
    | false =>
      refine iff_of_false ?_ (by simp)
      simp [validateField, passwordRule, minLengthFails, patternFails, hne, hm]

theorem validateForm_fst (u p : String) :
    (validateForm u p).1 =
      jsOr (validateField usernameRule "username" u)
        (validateField passwordRule "password" p) := by
  unfold validateForm
  by_cases h : (validateField usernameRule "username" u != ""
      || validateField passwordRule "password" p != "") = true
  · simp [h]
  · simp only [Bool.or_eq_true, bne_iff_ne, ne_eq, not_or, not_not] at h
    simp [h.1, h.2, jsOr]

theorem validateForm_snd_iff (u p : String) :
    (validateForm u p).2 = true ↔
      validateField usernameRule "username" u = ""
        ∧ validateField passwordRule "password" p = "" := by
  unfold validateForm
  by_cases h : (validateField usernameRule "username" u != ""
      || validateField passwordRule "password" p != "") = true
  · refine iff_of_false (by simp [h]) ?_
    simp only [Bool.or_eq_true, bne_iff_ne, ne_eq] at h
    tauto
  · simp only [Bool.or_eq_true, bne_iff_ne, ne_eq, not_or, not_not] at h
    refine iff_of_true (by simp [h.1, h.2]) h

theorem catchErrorMessage_ne_empty (response : Option ErrResponse) :
    catchErrorMessage response ≠ "" := by
  simp only [catchErrorMessage]
  split_ifs <;> decide

theorem handleSubmit_invalid (s : FormState) (o : Outcome)
    (h : (validateForm s.username s.password).2 = false) :
    handleSubmit s o
      = ({ s with error := (validateForm s.username s.password).1 }, []) := by
  simp [handleSubmit, h]

theorem handleSubmit_httpError (s : FormState) (r : ErrResponse)
    (h : (validateForm s.username s.password).2 = true) :
    handleSubmit s (.httpError r)
      = ({ s with error := catchErrorMessage (some r), isLoading := false },
         [.postRequest s.username s.password]) := by
  simp [handleSubmit, h]

theorem handleSubmit_networkError (s : FormState)
    (h : (validateForm s.username s.password).2 = true) :
    handleSubmit s .networkError
      = ({ s with error := catchErrorMessage none, isLoading := false },
         [.postRequest s.username s.password]) := by
  simp [handleSubmit, h]

theorem handleSubmit_ok_success (s : FormState) (u : Nat)
    (h : (validateForm s.username s.password).2 = true) :
    handleSubmit s (.ok ⟨true, u⟩)
      = ({ s with error := "", isLoading := false },
         [.postRequest s.username s.password, .commitSetUser u,
          .emitSuccess "Login successful!"]) := by
  have h1 : (validateForm s.username s.password).1 = "" := by
    rw [validateForm_fst]
    rcases (validateForm_snd_iff s.username s.password).mp h with ⟨h1, h2⟩
    simp [jsOr, h1, h2]
  simp [handleSubmit, h, h1]

end LoginForm

namespace LoginForm

theorem passwordPatternMatch_eq_false_of (p : String)
    (h : p.length < 8
      ∨ p.data.any Char.isAlpha = false
      ∨ p.data.any Char.isDigit = false) :
    passwordPatternMatch p = false := by
  have h8 : ¬ (8 ≤ p.length) ∨ p.data.any Char.isAlpha = false
      ∨ p.data.any Char.isDigit = false := by
    rcases h with h | h
    · exact Or.inl (by omega)
    · exact Or.inr h
  unfold passwordPatternMatch
  rcases h8 with h | h | h <;> simp [h]

/-- C1: at the failing input — a 500 error response whose body carries the
message "Account locked" — the catch handler sets the form error to
"Invalid username or password", while the spec's priority order (body message
first) requires "Account locked": the JS `||` binds into the ternary
condition instead of providing the fallback chain. -/
theorem C1_message_priority_code_bug :
    (handleSubmit ⟨"admin", "password1", "", false⟩
        (.httpError ⟨500, some "Account locked"⟩)).1.error
      = "Invalid username or password"
    ∧ specFailureMessage (some ⟨500, some "Account locked"⟩) = "Account locked" := by
  constructor <;> decide

/-- C2 counterexample: a submission answered with a 429 response whose body
carries a message does not produce "Too many attempts. Please try again
later" — the catch handler yields "Invalid username or password" instead. -/
theorem C2_429_with_message_counterexample :
    (handleSubmit ⟨"admin", "password1", "", false⟩
        (.httpError ⟨429, some "Rate limited"⟩)).1.error
      ≠ "Too many attempts. Please try again later" := by
  decide

/-- C2 (amended): for a validated submission answered with a 401 response the
form error is "Invalid username or password" (whatever the body), and for one
answered with a 429 response whose body carries no message it is
"Too many attempts. Please try again later". -/
theorem C2_status_specific_errors (s : FormState) (r : ErrResponse)
    (hv : (validateForm s.username s.password).2 = true) :
    (r.status = 401 →
      (handleSubmit s (.httpError r)).1.error = "Invalid username or password")
    ∧ (r.status = 429 → (r.message = none ∨ r.message = some "") →
      (handleSubmit s (.httpError r)).1.error
        = "Too many attempts. Please try again later") := by
  rw [handleSubmit_httpError s r hv]
  constructor
  · intro h401
    rcases r with ⟨st, msg⟩
    cases h401
    simp [catchErrorMessage]
  · intro h429 hmsg
    rcases r with ⟨st, msg⟩
    cases h429
    rcases hmsg with h | h <;> cases h <;> rfl

/-- C2 witness: concrete simulated 401 and 429 responses with no body. -/
theorem C2_status_specific_errors_witness :
    (handleSubmit ⟨"admin", "password1", "", false⟩ (.httpError ⟨401, none⟩)).1.error
      = "Invalid username or password"
    ∧ (handleSubmit ⟨"admin", "password1", "", false⟩ (.httpError ⟨429, none⟩)).1.error
      = "Too many attempts. Please try again later" :=
  ⟨(C2_status_specific_errors ⟨"admin", "password1", "", false⟩ ⟨401, none⟩ (by decide)).1
      rfl,
   (C2_status_specific_errors ⟨"admin", "password1", "", false⟩ ⟨429, none⟩ (by decide)).2
      rfl (Or.inl rfl)⟩

/-- C3 counterexample: a validated submission answered by a 2xx response whose
body lacks a true success flag leaves the form error empty. -/
theorem C3_ok_without_flag_counterexample :
    (handleSubmit ⟨"admin", "password1", "", false⟩ (.ok ⟨false, 0⟩)).1.error = "" := by
  decide

/-- C3 (amended): for every validated submission whose outcome is a transport
error with no response or a non-2xx error response, the form error is a
non-empty string after the submission completes. -/
theorem C3_failure_nonempty_error (s : FormState) (o : Outcome)
    (hv : (validateForm s.username s.password).2 = true)
    (ho : (∃ r, o = .httpError r) ∨ o = .networkError) :
    (handleSubmit s o).1.error ≠ "" := by
  rcases ho with ⟨r, rfl⟩ | rfl
  · rw [handleSubmit_httpError s r hv]
    exact catchErrorMessage_ne_empty (some r)
  · rw [handleSubmit_networkError s hv]
    exact catchErrorMessage_ne_empty none

/-- C3 witness: a concrete validated submission hitting a transport error. -/
theorem C3_failure_nonempty_error_witness :
    (handleSubmit ⟨"admin", "password1", "", false⟩ .networkError).1.error ≠ "" :=
  C3_failure_nonempty_error ⟨"admin", "password1", "", false⟩ .networkError (by decide)
    (Or.inr rfl)

end LoginForm

namespace LoginForm

/-- C4 counterexample: with username "ab" (non-empty but too short) and an
empty password, the first empty field is the password, yet the form error is
the username length message, not "Password is required". -/
theorem C4_first_empty_field_counterexample :
    (handleSubmit ⟨"ab", "", "", false⟩ .networkError).1.error
      = "Username must be at least 3 characters"
    ∧ (handleSubmit ⟨"ab", "", "", false⟩ .networkError).1.error
      ≠ "Password is required" := by
  constructor <;> decide

/-- C4 (amended): whenever the username or the password is empty, validation
fails, no network request is issued, the form error is the first failing
field's message in the order username then password, and an empty field's own
message is "<Field> is required". -/
theorem C4_required_fields (s : FormState) (o : Outcome)
    (h : s.username = "" ∨ s.password = "") :
    (validateForm s.username s.password).2 = false
    ∧ (handleSubmit s o).2 = []
    ∧ (handleSubmit s o).1.error
        = jsOr (validateField usernameRule "username" s.username)
            (validateField passwordRule "password" s.password)
    ∧ (s.username = "" →
        validateField usernameRule "username" s.username = "Username is required")
    ∧ (s.password = "" →
        validateField passwordRule "password" s.password = "Password is required") := by
  have hf : (validateForm s.username s.password).2 = false := by
    cases hb : (validateForm s.username s.password).2
    · rfl
    · exfalso
      have hboth := (validateForm_snd_iff s.username s.password).mp hb
      rcases h with h | h
      · have h3 := (validateField_username_empty_iff s.username).mp hboth.1
        rw [h] at h3
        exact absurd h3 (by decide)
      · have hm := (validateField_password_empty_iff s.password).mp hboth.2
        rw [h] at hm
        exact absurd hm (by decide)
  refine ⟨hf, ?_, ?_, ?_, ?_⟩
  · rw [handleSubmit_invalid s o hf]
  · rw [handleSubmit_invalid s o hf]
    exact validateForm_fst s.username s.password
  · intro h1
    rw [h1]
    decide
  · intro h2
    rw [h2]
    decide

/-- C4 witness: an empty username is rejected without a request. -/
theorem C4_required_fields_witness :
    (handleSubmit ⟨"", "secret", "", false⟩ .networkError).2 = [] :=
  (C4_required_fields ⟨"", "secret", "", false⟩ .networkError (Or.inl rfl)).2.1

/-- C5 counterexample: with a valid username and the empty password — which is
shorter than 8 characters — the form error is "Password is required", not the
configured password-format message. -/
theorem C5_empty_password_counterexample :
    (handleSubmit ⟨"admin", "", "", false⟩ .networkError).1.error
      = "Password is required"
    ∧ (handleSubmit ⟨"admin", "", "", false⟩ .networkError).1.error
      ≠ "Password must be at least 8 characters and include letters and numbers" := by
  constructor <;> decide

/-- C5 (amended): for every submission with a valid username (length at least
3) and a non-empty password failing the configured pattern (shorter than 8
characters, or containing no letter, or containing no digit), the form error
becomes the configured password-format message and no network request is
issued. -/
theorem C5_pattern_failure (s : FormState) (o : Outcome)
    (hu : 3 ≤ s.username.length) (hp : s.password ≠ "")
    (hfail : s.password.length < 8
      ∨ s.password.data.any Char.isAlpha = false
      ∨ s.password.data.any Char.isDigit = false) :
    (handleSubmit s o).1.error
      = "Password must be at least 8 characters and include letters and numbers"
    ∧ (handleSubmit s o).2 = [] := by
  have hm : passwordPatternMatch s.password = false :=
    passwordPatternMatch_eq_false_of s.password hfail
  have hue : validateField usernameRule "username" s.username = "" :=
    (validateField_username_empty_iff s.username).mpr hu
  have hpe : validateField passwordRule "password" s.password
      = "Password must be at least 8 characters and include letters and numbers" := by
    have hne : (s.password == "") = false := beq_eq_false_iff_ne.mpr hp
    simp [validateField, passwordRule, minLengthFails, patternFails, hne, hm]
  have hf : (validateForm s.username s.password).2 = false := by
    cases hb : (validateForm s.username s.password).2
    · rfl
    · exfalso
      have h2 := ((validateForm_snd_iff s.username s.password).mp hb).2
      rw [hpe] at h2
      exact absurd h2 (by decide)
  constructor
  · rw [handleSubmit_invalid s o hf]
    show (validateForm s.username s.password).1 = _
    rw [validateForm_fst, hue, hpe]
    decide
  · rw [handleSubmit_invalid s o hf]

/-- C5 witness: a six-character password is rejected with the configured
message and no request. -/
theorem C5_pattern_failure_witness :
    (handleSubmit ⟨"admin", "short1", "", false⟩ .networkError).1.error
      = "Password must be at least 8 characters and include letters and numbers" :=
  (C5_pattern_failure ⟨"admin", "short1", "", false⟩ .networkError (by decide) (by decide)
    (Or.inl (by decide))).1

end LoginForm

namespace LoginForm

/-- C6: for every validated submission answered by a success response with a
true success flag and user payload u, the setUser commit happens exactly once
and with u, the success event with the literal "Login successful!" is emitted
exactly once, and the username and password fields are left unchanged. -/
theorem C6_success_commit_and_emit (s : FormState) (u : Nat)
    (hv : (validateForm s.username s.password).2 = true) :
    (handleSubmit s (.ok ⟨true, u⟩)).2.countP
        (fun e => match e with | .commitSetUser _ => true | _ => false) = 1
    ∧ (handleSubmit s (.ok ⟨true, u⟩)).2.count (.commitSetUser u) = 1
    ∧ (handleSubmit s (.ok ⟨true, u⟩)).2.countP
        (fun e => match e with | .emitSuccess _ => true | _ => false) = 1
    ∧ (handleSubmit s (.ok ⟨true, u⟩)).2.count (.emitSuccess "Login successful!") = 1
    ∧ (handleSubmit s (.ok ⟨true, u⟩)).1.username = s.username
    ∧ (handleSubmit s (.ok ⟨true, u⟩)).1.password = s.password := by
  rw [handleSubmit_ok_success s u hv]
  refine ⟨?_, ?_, ?_, ?_, rfl, rfl⟩
  · simp [List.countP_cons]
  · simp [List.count_cons]
  · simp [List.countP_cons]
  · simp [List.count_cons]

/-- C6 witness: a concrete valid submission with user payload 1. -/
theorem C6_success_commit_and_emit_witness :
    (handleSubmit ⟨"admin", "password1", "", false⟩ (.ok ⟨true, 1⟩)).2.count
        (Effect.commitSetUser 1) = 1
    ∧ (handleSubmit ⟨"admin", "password1", "", false⟩ (.ok ⟨true, 1⟩)).2.count
        (Effect.emitSuccess "Login successful!") = 1 :=
  ⟨(C6_success_commit_and_emit ⟨"admin", "password1", "", false⟩ 1 (by decide)).2.1,
   (C6_success_commit_and_emit ⟨"admin", "password1", "", false⟩ 1 (by decide)).2.2.2.1⟩

/-- C7: a validated submission rejected with no response object sets the
generic fallback message, and whatever the outcome, a submission started with
the submit control enabled (isLoading = false) ends with isLoading = false. -/
theorem C7_generic_fallback_and_cleanup (s : FormState) (o : Outcome)
    (hl : s.isLoading = false) :
    ((validateForm s.username s.password).2 = true →
      (handleSubmit s .networkError).1.error
        = "Authentication failed. Please try again.")
    ∧ (handleSubmit s o).1.isLoading = false := by
  constructor
  · intro hv
    rw [handleSubmit_networkError s hv]
    rfl
  · cases hb : (validateForm s.username s.password).2
    · rw [handleSubmit_invalid s o hb]
      exact hl
    · cases o with
      | ok resp =>
        rcases resp with ⟨succ, u⟩
        cases succ <;> simp [handleSubmit, hb]
      | httpError r => rw [handleSubmit_httpError s r hb]
      | networkError => rw [handleSubmit_networkError s hb]

/-- C7 witness: a concrete network failure with no response. -/
theorem C7_generic_fallback_and_cleanup_witness :
    (handleSubmit ⟨"admin", "password1", "", false⟩ .networkError).1.error
      = "Authentication failed. Please try again."
    ∧ (handleSubmit ⟨"admin", "password1", "", false⟩ .networkError).1.isLoading
      = false :=
  ⟨(C7_generic_fallback_and_cleanup ⟨"admin", "password1", "", false⟩ .networkError rfl).1
      (by decide),
   (C7_generic_fallback_and_cleanup ⟨"admin", "password1", "", false⟩ .networkError rfl).2⟩

/-- C8: the form-level error is the first failing field's message in the fixed
order username then password: when the username rule fails its message is the
form error (never the password's), and when the username passes the form error
is exactly the password field's message — never a concatenation. -/
theorem C8_first_failure_wins (u p : String) :
    (validateField usernameRule "username" u ≠ "" →
      (validateForm u p).1 = validateField usernameRule "username" u)
    ∧ (validateField usernameRule "username" u = "" →
      (validateForm u p).1 = validateField passwordRule "password" p) := by
  constructor
  · intro h
    rw [validateForm_fst]
    simp [jsOr, h]
  · intro h
    rw [validateForm_fst, h]
    simp [jsOr]

/-- C8 witness: a failing username hides the password message; a passing
username surfaces the password message. -/
theorem C8_first_failure_wins_witness :
    (validateForm "" "secret").1 = "Username is required"
    ∧ (validateForm "abc" "").1 = "Password is required" :=
  ⟨(C8_first_failure_wins "" "secret").1 (by decide),
   (C8_first_failure_wins "abc" "").2 (by decide)⟩

end LoginForm

/-- C9: the generated input identifier for the label "User Name" — the label
lower-cased, whitespace runs replaced by hyphens, prefixed with "field-" —
equals "field-user-name". -/
theorem C9_inputId_user_name : FormField.inputId "User Name" = "field-user-name" := by
  decide

namespace LoginForm

/-- C10: the submit-button enable gate agrees with submit-time validation —
the isValid computed property equals the boolean validateForm returns, for all
username and password values. -/
theorem C10_isValid_agrees_with_validateForm (u p : String) :
    isValid u p = (validateForm u p).2 := by
  have h : isValid u p = true ↔ (validateForm u p).2 = true := by
    rw [validateForm_snd_iff, validateField_username_empty_iff,
      validateField_password_empty_iff]
    simp [isValid]
  cases ha : isValid u p
  · cases hb : (validateForm u p).2
    · rfl
    · have h1 := h.mpr hb
      rw [ha] at h1
      exact h1
  · exact (h.mp ha).symm

end LoginForm
